import Mathlib

/-!
Shallow embedding of the VARA modem driver (packages `vara`: `conn.go`,
`vara.go`).  The driver exposes a flow-controlled stream over a modem's
command/data channel pair.  We model:

* the data-stream operations `Write`, `Flush`, `Read`, `Close` of `conn.go`,
  as functions of the connection state and an explicit trace of the events
  the select loops observe (BUFFER reports, the disconnected sentinel,
  channel closure, and timer expiry);
* the buffer counter semantics (local increments from `conn.go`, device
  overwrites from the event loop);
* the command-listening loop `cmdListen` of `vara.go`, as a function over a
  list of read results from the command channel.
-/

namespace Vara

/-- Connection state of the modem: `connectedState` in the Go code
(`connected` and `disconnected` constants of `vara.go`). -/
inductive ConnectedState
  | connected
  | disconnected
deriving DecidableEq, Repr

/-- Errors a stream operation can return: `io.EOF`, the
"buffer timeout" errors of `Write`/`Flush`, and the
"disconnect timeout - connection aborted" error of `Close`. -/
inductive StreamErr
  | eof
  | bufferTimeout
  | disconnectTimeout
deriving DecidableEq, Repr

/-- One outcome of a `select` iteration inside `Write`/`Flush`: a parsed
`BUFFER n` command delivered on the subscription channel, the
`disconnected` sentinel, the subscription channel being closed
(`ok == false`), or the one-minute timer firing. -/
inductive WInput
  | buffer (n : Nat)
  | disc
  | closedCh
  | timerFire
deriving DecidableEq, Repr

/-- State of a `conn` as seen by the data-stream operations:
the modem's `connectedState`, the graceful-closing flag `closing`,
and the shared `bufferCount`. -/
structure ConnState where
  connectedState : ConnectedState
  closing : Bool
  bufferCount : Nat
deriving DecidableEq, Repr

/-- Result of a modelled `Write` call: `done n err wrote finalCount`
returns `(n, err)` to the caller, `wrote` records whether the underlying
`dataConn.Write` was performed (which in the code happens exactly when
`bufferCount.incr(len(b))` is executed, conn.go lines 196-197), and
`finalCount` is the shared buffer count after the call.  `blocked` means
the call is still waiting when the supplied event trace runs out. -/
inductive WriteOut
  | done (n : Nat) (err : Option StreamErr) (wrote : Bool) (finalCount : Nat)
  | blocked
deriving DecidableEq, Repr

/-- Possible exits of the throttle loop of `Write`: leave the loop with a
count and the unconsumed trace, fail with an error, or still be waiting
when the trace runs out. -/
inductive ThrottleOut
  | proceed (count : Nat) (rest : List WInput)
  | fail (e : StreamErr) (count : Nat)
  | stillWaiting
deriving DecidableEq, Repr

/-- Throttle loop of `Write` (conn.go lines 155-176): while
`bufferCount >= 7*len(b) && !closing`, wait for an event.  A `BUFFER n`
event overwrites the count and resets the timer; `disconnected` or a
closed channel returns `io.EOF`; a timer expiry returns the buffer-timeout
error. -/
def writeThrottle (blen : Nat) (closing : Bool) :
    List WInput → Nat → ThrottleOut
  | evs, count =>
    if 7 * blen ≤ count ∧ closing = false then
      match evs with
      | [] => ThrottleOut.stillWaiting
      | WInput.buffer n :: rest => writeThrottle blen closing rest n
      | WInput.disc :: _ => ThrottleOut.fail StreamErr.eof count
      | WInput.closedCh :: _ => ThrottleOut.fail StreamErr.eof count
      | WInput.timerFire :: _ => ThrottleOut.fail StreamErr.bufferTimeout count
    else ThrottleOut.proceed count evs

/-- Wait-for-disconnect stage of `Write` (conn.go lines 182-192): after a
`DISCONNECT` has been requested, drain the subscription channel until the
`disconnected` sentinel arrives or the channel closes, ignoring everything
else; no timer is consulted in this stage.  The shared buffer count is
still overwritten by device reports while we wait.
Modelled from the spec: the overwrite of the shared Buffer Count by each
`Buffer(n)` event is performed by event-handling code of this repository
that is not under src/ (`parseBuffer` and the buffer handler); the spec
states the device report overwrites the count. -/
def awaitDisc (sc : Nat) : List WInput → WriteOut
  | [] => WriteOut.blocked
  | WInput.disc :: _ => WriteOut.done 0 (some StreamErr.eof) false sc
  | WInput.closedCh :: _ => WriteOut.done 0 (some StreamErr.eof) false sc
  | WInput.buffer n :: rest => awaitDisc n rest
  | WInput.timerFire :: rest => awaitDisc sc rest

/-- The `Write` method of `conn` (conn.go lines 138-198).  `blen` is
`len(b)`.  If not connected, return `(0, io.EOF)` at once.  Otherwise run
the throttle loop; then, if closing while still connected, block for the
disconnect to complete and return `(0, io.EOF)`; otherwise increment the
shared count by `blen` and perform the underlying write. -/
def Write (s : ConnState) (blen : Nat) (evs : List WInput) : WriteOut :=
  if s.connectedState ≠ ConnectedState.connected then
    WriteOut.done 0 (some StreamErr.eof) false s.bufferCount
  else
    match writeThrottle blen s.closing evs s.bufferCount with
    | ThrottleOut.fail e count => WriteOut.done 0 (some e) false count
    | ThrottleOut.stillWaiting => WriteOut.blocked
    | ThrottleOut.proceed count rest =>
      if s.closing = true ∧ s.connectedState = ConnectedState.connected then
        awaitDisc count rest
      else
        WriteOut.done blen none true (count + blen)

/-- Result of a modelled `Flush` call: the returned error (if any), or
`blocked` when the trace runs out while the call is still waiting. -/
inductive FlushOut
  | ret (err : Option StreamErr)
  | blocked
deriving DecidableEq, Repr

/-- Drain loop of `Flush` (conn.go lines 41-57): while the count is
positive, wait for an event; `BUFFER n` overwrites the count and resets
the timer, `disconnected` or channel closure returns `io.EOF`, timer
expiry returns the flush buffer-timeout error. -/
def flushLoop : Nat → List WInput → FlushOut
  | 0, _ => FlushOut.ret none
  | _ + 1, [] => FlushOut.blocked
  | _ + 1, WInput.disc :: _ => FlushOut.ret (some StreamErr.eof)
  | _ + 1, WInput.closedCh :: _ => FlushOut.ret (some StreamErr.eof)
  | _ + 1, WInput.timerFire :: _ => FlushOut.ret (some StreamErr.bufferTimeout)
  | _ + 1, WInput.buffer n :: rest => flushLoop n rest

/-- The `Flush` method of `conn` (conn.go lines 29-58): if the stream is
in graceful-closing mode return `nil` immediately, otherwise run the
drain loop starting from the current shared count. -/
def Flush (s : ConnState) (evs : List WInput) : FlushOut :=
  if s.closing = true then FlushOut.ret none
  else flushLoop s.bufferCount evs

/-- Which of the two racing outcomes of `Read` completes first
(conn.go lines 113-135): the underlying `dataConn.Read` returning
`(n, err)`, or the `disconnected` subscription firing. -/
inductive ReadRace
  | dataReady (n : Nat) (err : Option StreamErr)
  | discFirst
deriving DecidableEq, Repr

/-- The `Read` method of `conn` (conn.go lines 105-136): if not connected,
return `(0, io.EOF)` immediately; otherwise return whichever of the
underlying read and the disconnect event wins the race (on disconnect the
pending read is cancelled via a deadline and `(0, io.EOF)` is returned). -/
def Read (s : ConnState) (race : ReadRace) : Nat × Option StreamErr :=
  if s.connectedState ≠ ConnectedState.connected then (0, some StreamErr.eof)
  else
    match race with
    | ReadRace.dataReady n e => (n, e)
    | ReadRace.discFirst => (0, some StreamErr.eof)

/-- One mutation of the shared Buffer Count: `localWrite len` is the
`v.bufferCount.incr(len(b))` performed by a successful `Write`
(conn.go line 196); `deviceReport n` is the processing of a `Buffer(n)`
event.
Modelled from the spec: the `bufferCount` type itself and the event-side
handler that stores a `Buffer(n)` report are in repository code not under
src/; the spec states that a device report overwrites (does not add to)
the count, while a successful local write adds the byte length written. -/
inductive CounterOp
  | deviceReport (n : Nat)
  | localWrite (len : Nat)
deriving DecidableEq, Repr

/-- Apply one counter mutation: a device report overwrites, a local
write increments. -/
def applyOp : Nat → CounterOp → Nat
  | _, CounterOp.deviceReport n => n
  | c, CounterOp.localWrite len => c + len

/-- Run a sequence of counter mutations from an initial count. -/
def runOps (c : Nat) (ops : List CounterOp) : Nat := ops.foldl applyOp c

/-- State touched by the `Close` method of `conn` (conn.go lines 78-103):
the one-shot `closeOnce` guard, the modem's `closed` flag, the connection
state, the graceful-closing flag, how many `DISCONNECT` commands have been
written to the command channel, and whether `Abort` was invoked. -/
structure CloseState where
  onceDone : Bool
  modemClosed : Bool
  connSt : ConnectedState
  closing : Bool
  disconnectsSent : Nat
  aborted : Bool
deriving DecidableEq, Repr

/-- Environment of one `Close` call: whether the `disconnected` event
arrives on the subscription within the 60-second window. -/
structure CloseEnv where
  discArrives : Bool
deriving DecidableEq, Repr

/-- The `Abort` effect invoked by `Close` on timeout.
Modelled from the spec: `Abort` is repository code not under src/; the
spec states that on timeout Close force-aborts the session (sends an
abort command / tears down immediately), leaving it disconnected. -/
def Abort (st : CloseState) : CloseState :=
  { st with aborted := true, connSt := ConnectedState.disconnected }

/-- The `Close` method of `conn` (conn.go lines 78-103).  The body runs
under `closeOnce.Do`, so it executes only for the first caller; `err` is a
variable local to each invocation, assigned only inside the body.  The
body: return if the modem is closed; set `closing`; return if already
disconnected; write `DISCONNECT`; wait up to 60 seconds for the
`disconnected` event — on arrival return `nil` (the event-consuming loop
has set the state to disconnected), on timeout call `Abort` and return the
disconnect-timeout error. -/
def Close (st : CloseState) (env : CloseEnv) : Option StreamErr × CloseState :=
  if st.onceDone = true then (none, st)
  else
    let st := { st with onceDone := true }
    if st.modemClosed = true then (none, st)
    else
      let st := { st with closing := true }
      if st.connSt = ConnectedState.disconnected then (none, st)
      else
        let st := { st with disconnectsSent := st.disconnectsSent + 1 }
        if env.discArrives = true then
          (none, { st with connSt := ConnectedState.disconnected })
        else
          (some StreamErr.disconnectTimeout, Abort st)

/-- State of the `Modem` as touched by the command-listening loop
(vara.go): `lastState`, whether the data and command TCP connections are
open (`nil` in Go is modelled as `false`), the busy flag, the
transmitter-keying state, and the history of values sent on the
`connectChange` channel. -/
structure ModemState where
  lastState : ConnectedState
  dataConnOpen : Bool
  cmdConnOpen : Bool
  busy : Bool
  ptt : Bool
  connectChange : List ConnectedState
deriving DecidableEq, Repr

/-- The `handleConnect` method (vara.go lines 202-205): record the
connected state and publish it on `connectChange`. -/
def handleConnect (m : ModemState) : ModemState :=
  { m with lastState := ConnectedState.connected,
           connectChange := m.connectChange ++ [ConnectedState.connected] }

/-- The `handleDisconnect` method (vara.go lines 207-215): record the
disconnected state, publish it on `connectChange`, then close the data
and command TCP connections (setting the handles to nil). -/
def handleDisconnect (m : ModemState) : ModemState :=
  { m with lastState := ConnectedState.disconnected,
           connectChange := m.connectChange ++ [ConnectedState.disconnected],
           dataConnOpen := false,
           cmdConnOpen := false }

/-- Dispatch of one command token inside `cmdListen`
(vara.go lines 165-197).  Returns the updated modem state and whether the
loop must return (only the `DISCONNECTED` case).  Unknown tokens are
logged and ignored.  The `rig` controller is modelled as present, as its
absence only suppresses the keying calls. -/
def processCmd (m : ModemState) (c : List Char) : ModemState × Bool :=
  if c = "PTT ON".data then ({ m with ptt := true }, false)
  else if c = "PTT OFF".data then ({ m with ptt := false }, false)
  else if c = "BUSY ON".data then ({ m with busy := true }, false)
  else if c = "BUSY OFF".data then ({ m with busy := false }, false)
  else if c = "OK".data then (m, false)
  else if c = "IAMALIVE".data then (m, false)
  else if c = "DISCONNECTED".data then (handleDisconnect m, true)
  else if "CONNECTED".data.isPrefixOf c then (handleConnect m, false)
  else if "BUFFER".data.isPrefixOf c then (m, false)
  else (m, false)

/-- Process the tokens of one record in order, skipping empty tokens,
stopping (with `true`) as soon as a token makes the loop return
(vara.go lines 160-198). -/
def processCmds (m : ModemState) : List (List Char) → ModemState × Bool
  | [] => (m, false)
  | c :: cs =>
    if c = [] then processCmds m cs
    else
      match processCmd m c with
      | (m2, true) => (m2, true)
      | (m2, false) => processCmds m2 cs

/-- Split a received chunk on carriage returns, as
`strings.Split(string(buf[:l]), "\r")` does (vara.go line 159). -/
def splitCR : List Char → List Char → List (List Char)
  | acc, [] => [acc.reverse]
  | acc, c :: cs =>
    if c = '\r' then acc.reverse :: splitCR [] cs
    else splitCR (c :: acc) cs

/-- One result of `m.cmdConn.Read` inside the listening loop: an error,
or a chunk of bytes. -/
inductive RInput
  | rerr
  | rdata (s : String)
deriving DecidableEq, Repr

/-- How a run of the listening loop ends: `terminated` models the
goroutine executing `return`; `awaitingInput` means the supplied list of
read results is exhausted while the loop is still alive (it would block
in `cmdConn.Read`). -/
inductive LoopStatus
  | terminated
  | awaitingInput
deriving DecidableEq, Repr

/-- The command-listening loop `cmdListen` (vara.go lines 147-200) run
over a list of read results.  At the top of each iteration the loop
returns if `cmdConn` is nil; a read error is logged and the loop
continues; otherwise the chunk is split on carriage returns and each
token dispatched, the `DISCONNECTED` token making the loop return. -/
def cmdListen (m : ModemState) : List RInput → ModemState × LoopStatus
  | [] =>
    if m.cmdConnOpen = false then (m, LoopStatus.terminated)
    else (m, LoopStatus.awaitingInput)
  | inp :: rest =>
    if m.cmdConnOpen = false then (m, LoopStatus.terminated)
    else
      match inp with
      | RInput.rerr => cmdListen m rest
      | RInput.rdata s =>
        match processCmds m (splitCR [] s.data) with
        | (m2, true) => (m2, LoopStatus.terminated)
        | (m2, false) => cmdListen m2 rest

/-- Concrete connection state used by several witnesses: connected, not
closing, buffer count 42 (the scenario of spec section 8). -/
def sampleConn : ConnState := ⟨ConnectedState.connected, false, 42⟩

/-- Concrete fresh close state used by witnesses: first call still
pending, modem open, connected, nothing sent. -/
def freshClose : CloseState := ⟨false, false, ConnectedState.connected, false, 0, false⟩

/-- Concrete modem state used by witnesses: connected, both TCP
connections open, not busy, transmitter unkeyed, nothing published. -/
def sampleModem : ModemState := ⟨ConnectedState.connected, true, true, false, false, []⟩

/-- Helper: the throttle loop exits at once, consuming nothing, when its
guard `bufferCount >= 7*len(b) && !closing` is false. -/
theorem writeThrottle_exit (blen : Nat) (closing : Bool) (evs : List WInput)
    (count : Nat) (h : ¬ (7 * blen ≤ count ∧ closing = false)) :
    writeThrottle blen closing evs count = ThrottleOut.proceed count evs := by
  cases evs with
  | nil => simp [writeThrottle, h]
  | cons e rest => cases e <;> simp [writeThrottle, h]

/-- C8: for every Read and every Write invoked while the connection state
is not connected, the call fails immediately with `(0, io.EOF)` — an
end-of-stream signal, not a hard error — regardless of the race outcome
or event trace, and without touching the buffer count or the data
channel. -/
theorem read_write_not_connected_eof (s : ConnState)
    (hs : s.connectedState ≠ ConnectedState.connected) :
    (∀ race, Read s race = (0, some StreamErr.eof)) ∧
    (∀ blen evs, Write s blen evs =
      WriteOut.done 0 (some StreamErr.eof) false s.bufferCount) := by
  constructor
  · intro race
    simp [Read, hs]
  · intro blen evs
    simp [Write, hs]

/-- Witness for C8 at the disconnected state with buffer count 3. -/
theorem read_write_not_connected_eof_witness :
    Read ⟨ConnectedState.disconnected, false, 3⟩ ReadRace.discFirst
        = (0, some StreamErr.eof) ∧
    Write ⟨ConnectedState.disconnected, false, 3⟩ 5 []
        = WriteOut.done 0 (some StreamErr.eof) false 3 :=
  ⟨(read_write_not_connected_eof _ (by decide)).1 ReadRace.discFirst,
   (read_write_not_connected_eof _ (by decide)).2 5 []⟩

/-- C9 counterexample: a Write of one byte on a connected stream with
buffer count 0 (so `0 < 7*1`) does block when the stream is in
graceful-closing mode — it consumes no bytes and waits for the
disconnect instead of immediately performing the underlying write, so
the claim as stated (which does not exclude graceful-closing mode) is
false. -/
theorem write_below_threshold_blocks_when_closing :
    (⟨ConnectedState.connected, true, 0⟩ : ConnState).bufferCount < 7 * 1 ∧
    (⟨ConnectedState.connected, true, 0⟩ : ConnState).connectedState
        = ConnectedState.connected ∧
    Write ⟨ConnectedState.connected, true, 0⟩ 1 [] = WriteOut.blocked ∧
    Write ⟨ConnectedState.connected, true, 0⟩ 1 []
        ≠ WriteOut.done 1 none true 1 := by
  decide

/-- C9 amended: for every Write(b) on a connected stream that is not in
graceful-closing mode, with current Buffer Count < 7*len(b), the call
never blocks: its result is the same for every event trace (it consumes
no event and needs no timer), it increments the Buffer Count by len(b)
and performs the underlying write. -/
theorem write_below_threshold_no_block (s : ConnState) (blen : Nat)
    (hs : s.connectedState = ConnectedState.connected)
    (hc : s.closing = false)
    (hlt : s.bufferCount < 7 * blen) :
    ∀ evs, Write s blen evs = WriteOut.done blen none true (s.bufferCount + blen) := by
  intro evs
  have hth := writeThrottle_exit blen s.closing evs s.bufferCount
    (fun h => absurd h.1 (Nat.not_le.mpr hlt))
  rw [hc] at hth
  simp [Write, hs, hc, hth]

/-- Witness for C9 amended: count 3, one-byte write, nonempty trace. -/
theorem write_below_threshold_no_block_witness :
    Write ⟨ConnectedState.connected, false, 3⟩ 1 [WInput.disc]
        = WriteOut.done 1 none true 4 :=
  write_below_threshold_no_block ⟨ConnectedState.connected, false, 3⟩ 1
    rfl rfl (by decide) [WInput.disc]

/-- C2: a `Buffer(n)` device report overwrites the Buffer Count with `n`
(whatever sequence of mutations preceded it), a successful local write of
`len` bytes increments it by `len`, and the count is never negative
(it lives in `Nat` and no mutation subtracts). -/
theorem bufferCount_semantics :
    (∀ c ops n, runOps c (ops ++ [CounterOp.deviceReport n]) = n) ∧
    (∀ c len, applyOp c (CounterOp.localWrite len) = c + len) ∧
    (∀ c ops, 0 ≤ runOps c ops) := by
  refine ⟨?_, ?_, ?_⟩
  · intro c ops n
    simp [runOps, List.foldl_append, applyOp]
  · intro c len
    rfl
  · intro c ops
    exact Nat.zero_le _

/-- C5: on a fresh Close of a connected stream, if the `disconnected`
event does not arrive within the 60-second window, Close sends the
disconnect command, aborts the session (forced teardown) and returns the
disconnect-timeout error, leaving the state disconnected; if the event
does arrive first, Close returns nil (and the event loop has put the
session in the disconnected state). -/
theorem close_timeout_behavior (st : CloseState)
    (h1 : st.onceDone = false) (h2 : st.modemClosed = false)
    (h3 : st.connSt = ConnectedState.connected) :
    Close st ⟨false⟩ =
      (some StreamErr.disconnectTimeout,
        { st with onceDone := true, closing := true,
                  disconnectsSent := st.disconnectsSent + 1,
                  connSt := ConnectedState.disconnected, aborted := true }) ∧
    Close st ⟨true⟩ =
      (none,
        { st with onceDone := true, closing := true,
                  disconnectsSent := st.disconnectsSent + 1,
                  connSt := ConnectedState.disconnected }) := by
  constructor <;> simp [Close, Abort, h1, h2, h3]

/-- Witness for C5 at the fresh connected close state. -/
theorem close_timeout_behavior_witness :
    Close freshClose ⟨false⟩ =
      (some StreamErr.disconnectTimeout,
        ⟨true, false, ConnectedState.disconnected, true, 1, true⟩) ∧
    Close freshClose ⟨true⟩ =
      (none, ⟨true, false, ConnectedState.disconnected, true, 1, false⟩) :=
  close_timeout_behavior freshClose rfl rfl rfl

/-- Helper: any call to `Close` leaves the one-shot guard consumed. -/
theorem Close_onceDone (st : CloseState) (env : CloseEnv) :
    (Close st env).2.onceDone = true := by
  obtain ⟨o, mc, cs, cl, ds, ab⟩ := st
  obtain ⟨d⟩ := env
  cases o <;> cases mc <;> cases cs <;> cases d <;> simp [Close, Abort]

/-- Helper: a `Close` call after the one-shot guard has fired is a no-op
returning `nil`, because `err` is local to each invocation and
`closeOnce.Do` skips the body. -/
theorem Close_after_once (st : CloseState) (env : CloseEnv)
    (h : st.onceDone = true) : Close st env = (none, st) := by
  simp [Close, h]

/-- C4 counterexample: starting from a fresh connected close state, a
first Close that times out returns the disconnect-timeout error, while a
second sequential Close returns `nil` — the two callers do not receive
the same outcome, because `err` is a variable local to each invocation
and only the first invocation's body assigns it. -/
theorem Close_second_outcome_differs :
    (Close freshClose ⟨false⟩).1 = some StreamErr.disconnectTimeout ∧
    (Close (Close freshClose ⟨false⟩).2 ⟨false⟩).1 = none ∧
    (Close (Close freshClose ⟨false⟩).2 ⟨false⟩).1 ≠ (Close freshClose ⟨false⟩).1 := by
  decide

/-- C4 amended: for every pair of sequential Close calls, at most one
DISCONNECT command is sent in total (exactly one when the first call runs
on a fresh, open, connected stream), and every call after the first is a
no-op that returns `nil` — which coincides with the first caller's
outcome only when that outcome was `nil`. -/
theorem Close_idempotent_effects (st : CloseState) (env1 env2 : CloseEnv) :
    (Close (Close st env1).2 env2).1 = none ∧
    (Close (Close st env1).2 env2).2 = (Close st env1).2 ∧
    (Close st env1).2.disconnectsSent ≤ st.disconnectsSent + 1 ∧
    (st.onceDone = false → st.modemClosed = false →
      st.connSt = ConnectedState.connected →
      (Close st env1).2.disconnectsSent = st.disconnectsSent + 1) := by
  refine ⟨?_, ?_, ?_, ?_⟩
  · rw [Close_after_once _ env2 (Close_onceDone st env1)]
  · rw [Close_after_once _ env2 (Close_onceDone st env1)]
  · obtain ⟨o, mc, cs, cl, ds, ab⟩ := st
    obtain ⟨d⟩ := env1
    cases o <;> cases mc <;> cases cs <;> cases d <;> simp [Close, Abort]
  · intro h1 h2 h3
    cases env1 with
    | mk d => cases d <;> simp [Close, Abort, h1, h2, h3]

/-- Witness for C4 amended: fresh connected state, first call times out
and sends one DISCONNECT, second call returns `nil`. -/
theorem Close_idempotent_effects_witness :
    (Close (Close freshClose ⟨false⟩).2 ⟨true⟩).1 = none ∧
    (Close freshClose ⟨false⟩).2.disconnectsSent = 0 + 1 :=
  ⟨(Close_idempotent_effects freshClose ⟨false⟩ ⟨true⟩).1,
   (Close_idempotent_effects freshClose ⟨false⟩ ⟨true⟩).2.2.2 rfl rfl rfl⟩

/-- C1: on a connected stream not in graceful-closing mode, a Write whose
length satisfies `bufferCount >= 7*len(b)` does not send bytes but waits:
with no event it stays blocked; a `disconnected` event during the wait
returns `(0, io.EOF)`; a timer expiry with no Buffer update returns the
buffer-timeout error; a `Buffer(n)` report that is still at or above the
threshold makes the call continue exactly as a Write started with count
`n`; and only a report with `n < 7*len(b)` makes it proceed to the
underlying write, incrementing the count by `len(b)`. -/
theorem Write_backpressure (s : ConnState) (blen : Nat)
    (hs : s.connectedState = ConnectedState.connected)
    (hc : s.closing = false)
    (hfull : 7 * blen ≤ s.bufferCount) :
    Write s blen [] = WriteOut.blocked ∧
    (∀ rest, Write s blen (WInput.disc :: rest) =
      WriteOut.done 0 (some StreamErr.eof) false s.bufferCount) ∧
    (∀ rest, Write s blen (WInput.timerFire :: rest) =
      WriteOut.done 0 (some StreamErr.bufferTimeout) false s.bufferCount) ∧
    (∀ n rest, 7 * blen ≤ n →
      Write s blen (WInput.buffer n :: rest) =
        Write { s with bufferCount := n } blen rest) ∧
    (∀ n rest, n < 7 * blen →
      Write s blen (WInput.buffer n :: rest) =
        WriteOut.done blen none true (n + blen)) := by
  refine ⟨?_, ?_, ?_, ?_, ?_⟩
  · simp [Write, writeThrottle, hs, hc, hfull]
  · intro rest
    simp [Write, writeThrottle, hs, hc, hfull]
  · intro rest
    simp [Write, writeThrottle, hs, hc, hfull]
  · intro n rest hn
    have hstep : writeThrottle blen false (WInput.buffer n :: rest) s.bufferCount
        = writeThrottle blen false rest n := by
      simp [writeThrottle, hfull]
    simp [Write, hs, hc, hstep]
  · intro n rest hn
    have hexit := writeThrottle_exit blen false rest n
      (fun h => absurd h.1 (Nat.not_le.mpr hn))
    have hstep : writeThrottle blen false (WInput.buffer n :: rest) s.bufferCount
        = ThrottleOut.proceed n rest := by
      simp [writeThrottle, hfull, hexit]
    simp [Write, hs, hc, hstep]

/-- Witness for C1 at the spec section 8 scenario: count 42, write of 5
bytes (42 >= 35 blocks; a BUFFER 10 report lets it proceed to count 15). -/
theorem Write_backpressure_witness :
    Write sampleConn 5 [] = WriteOut.blocked ∧
    Write sampleConn 5 [WInput.buffer 10] = WriteOut.done 5 none true 15 := by
  have h := Write_backpressure sampleConn 5 rfl rfl (by decide)
  exact ⟨h.1, h.2.2.2.2 10 [] (by decide)⟩

/-- Helper: the wait-for-disconnect stage never performs the underlying
write; it either exhausts the trace or returns `(0, io.EOF)`. -/
theorem awaitDisc_cases (evs : List WInput) : ∀ sc : Nat,
    awaitDisc sc evs = WriteOut.blocked ∨
      ∃ c, awaitDisc sc evs = WriteOut.done 0 (some StreamErr.eof) false c := by
  induction evs with
  | nil => exact fun sc => Or.inl rfl
  | cons e rest ih =>
    intro sc
    cases e with
    | buffer n => simpa [awaitDisc] using ih n
    | disc => exact Or.inr ⟨sc, rfl⟩
    | closedCh => exact Or.inr ⟨sc, rfl⟩
    | timerFire => simpa [awaitDisc] using ih sc

/-- Helper: once the `disconnected` sentinel is in the trace, the
wait-for-disconnect stage returns `(0, io.EOF)`. -/
theorem awaitDisc_disc_mem (evs : List WInput) : ∀ sc : Nat,
    WInput.disc ∈ evs →
      ∃ c, awaitDisc sc evs = WriteOut.done 0 (some StreamErr.eof) false c := by
  induction evs with
  | nil => intro sc h; cases h
  | cons e rest ih =>
    intro sc h
    cases e with
    | disc => exact ⟨sc, rfl⟩
    | buffer n =>
      have hr : WInput.disc ∈ rest := by simpa using h
      simpa [awaitDisc] using ih n hr
    | closedCh => exact ⟨sc, rfl⟩
    | timerFire =>
      have hr : WInput.disc ∈ rest := by simpa using h
      simpa [awaitDisc] using ih sc hr

/-- C3: a Write issued while the stream is in graceful-closing mode but
still connected never performs the underlying write (so it neither sends
bytes to the data channel nor increments the Buffer Count): for every
event trace it either keeps waiting or returns `(0, io.EOF)`, and once
the `disconnected` event fires it does return `(0, io.EOF)`. -/
theorem Write_graceful_closing (s : ConnState) (blen : Nat)
    (hcl : s.closing = true)
    (hs : s.connectedState = ConnectedState.connected) :
    (∀ evs, Write s blen evs = WriteOut.blocked ∨
      ∃ c, Write s blen evs = WriteOut.done 0 (some StreamErr.eof) false c) ∧
    (∀ evs, WInput.disc ∈ evs →
      ∃ c, Write s blen evs = WriteOut.done 0 (some StreamErr.eof) false c) := by
  have hwa : ∀ evs, Write s blen evs = awaitDisc s.bufferCount evs := by
    intro evs
    have hth := writeThrottle_exit blen true evs s.bufferCount
      (fun h => by exact absurd h.2 (by simp))
    simp [Write, hs, hcl, hth]
  constructor
  · intro evs
    rw [hwa]
    exact awaitDisc_cases evs s.bufferCount
  · intro evs h
    rw [hwa]
    exact awaitDisc_disc_mem evs s.bufferCount h

/-- Witness for C3: closing connected stream, one-byte write, trace with
the disconnect event. -/
theorem Write_graceful_closing_witness :
    ∃ c, Write ⟨ConnectedState.connected, true, 0⟩ 1 [WInput.disc]
      = WriteOut.done 0 (some StreamErr.eof) false c :=
  (Write_graceful_closing ⟨ConnectedState.connected, true, 0⟩ 1 rfl rfl).2
    [WInput.disc] (by simp)

/-- C7: Flush returns `nil` immediately when the stream is in
graceful-closing mode; otherwise it returns `nil` as soon as the Buffer
Count is zero, and while the count is positive it waits, re-evaluating
the count on every `Buffer(n)` event, returning `io.EOF` on a
`disconnected` event (or channel closure) and the buffer-timeout error
when the one-minute timer fires with no Buffer activity. -/
theorem Flush_drain_spec (s : ConnState) :
    (s.closing = true → ∀ evs, Flush s evs = FlushOut.ret none) ∧
    (s.closing = false → s.bufferCount = 0 →
      ∀ evs, Flush s evs = FlushOut.ret none) ∧
    (s.closing = false → 0 < s.bufferCount →
      Flush s [] = FlushOut.blocked ∧
      (∀ rest, Flush s (WInput.disc :: rest) = FlushOut.ret (some StreamErr.eof)) ∧
      (∀ rest, Flush s (WInput.closedCh :: rest) = FlushOut.ret (some StreamErr.eof)) ∧
      (∀ rest, Flush s (WInput.timerFire :: rest) =
        FlushOut.ret (some StreamErr.bufferTimeout)) ∧
      (∀ n rest, Flush s (WInput.buffer n :: rest) = flushLoop n rest)) := by
  refine ⟨?_, ?_, ?_⟩
  · intro h evs
    simp [Flush, h]
  · intro h h0 evs
    simp [Flush, h, h0, flushLoop]
  · intro h hpos
    obtain ⟨k, hk⟩ : ∃ k, s.bufferCount = k + 1 :=
      ⟨s.bufferCount - 1, by omega⟩
    refine ⟨?_, ?_, ?_, ?_, ?_⟩ <;> simp [Flush, h, hk, flushLoop]

/-- Witness for C7: a closing stream flushes at once; a non-closing
stream with count 5 returns EOF on disconnect and drains on BUFFER 0. -/
theorem Flush_drain_spec_witness :
    Flush ⟨ConnectedState.connected, true, 9⟩ [] = FlushOut.ret none ∧
    Flush ⟨ConnectedState.connected, false, 5⟩ [WInput.disc]
      = FlushOut.ret (some StreamErr.eof) ∧
    Flush ⟨ConnectedState.connected, false, 5⟩ [WInput.buffer 0]
      = FlushOut.ret none := by
  refine ⟨(Flush_drain_spec ⟨ConnectedState.connected, true, 9⟩).1 rfl [], ?_, ?_⟩
  · exact ((Flush_drain_spec ⟨ConnectedState.connected, false, 5⟩).2.2 rfl
      (by decide)).2.1 []
  · rw [((Flush_drain_spec ⟨ConnectedState.connected, false, 5⟩).2.2 rfl
      (by decide)).2.2.2.2 0 []]
    rfl

/-- Helper: dispatching the `DISCONNECTED` token runs `handleDisconnect`
and asks the loop to return. -/
theorem processCmd_disconnected (m : ModemState) :
    processCmd m "DISCONNECTED".data = (handleDisconnect m, true) := by
  unfold processCmd
  rw [if_neg (by decide), if_neg (by decide), if_neg (by decide), if_neg (by decide),
      if_neg (by decide), if_neg (by decide), if_pos rfl]

/-- Helper: a record whose first token is `DISCONNECTED` makes the
dispatcher stop with `handleDisconnect` applied. -/
theorem processCmds_disconnected_head (m : ModemState) (cs : List (List Char)) :
    processCmds m ("DISCONNECTED".data :: cs) = (handleDisconnect m, true) := by
  simp only [processCmds]
  rw [if_neg (by decide), processCmd_disconnected]

/-- Helper: a token dispatch that does not ask the loop to return leaves
the command connection handle untouched. -/
theorem processCmd_false_conn (m m2 : ModemState) (c : List Char)
    (h : processCmd m c = (m2, false)) : m2.cmdConnOpen = m.cmdConnOpen := by
  unfold processCmd at h
  split_ifs at h <;> simp_all [handleConnect] <;> rw [← h]

/-- Helper: a token dispatch that asks the loop to return is exactly the
`DISCONNECTED` handler. -/
theorem processCmd_true_disc (m m2 : ModemState) (c : List Char)
    (h : processCmd m c = (m2, true)) : m2 = handleDisconnect m := by
  unfold processCmd at h
  split_ifs at h <;> simp_all

/-- Helper: dispatching a whole record without the loop returning leaves
the command connection handle untouched. -/
theorem processCmds_false_conn : ∀ (cs : List (List Char)) (m m2 : ModemState),
    processCmds m cs = (m2, false) → m2.cmdConnOpen = m.cmdConnOpen := by
  intro cs
  induction cs with
  | nil =>
    intro m m2 h
    simp [processCmds] at h
    rw [← h]
  | cons c cs ih =>
    intro m m2 h
    by_cases hc : c = []
    · rw [processCmds, if_pos hc] at h
      exact ih m m2 h
    · rw [processCmds, if_neg hc] at h
      cases hp : processCmd m c with
      | mk m3 b =>
        rw [hp] at h
        cases b with
        | true => simp at h
        | false =>
          simp only at h
          rw [ih m3 m2 h]
          exact processCmd_false_conn m m3 c hp

/-- Helper: if dispatching a record makes the loop return, the resulting
state went through `handleDisconnect`: it is disconnected and both TCP
handles are closed. -/
theorem processCmds_true_disc : ∀ (cs : List (List Char)) (m m2 : ModemState),
    processCmds m cs = (m2, true) →
      m2.lastState = ConnectedState.disconnected ∧
      m2.cmdConnOpen = false ∧ m2.dataConnOpen = false := by
  intro cs
  induction cs with
  | nil =>
    intro m m2 h
    simp [processCmds] at h
  | cons c cs ih =>
    intro m m2 h
    by_cases hc : c = []
    · rw [processCmds, if_pos hc] at h
      exact ih m m2 h
    · rw [processCmds, if_neg hc] at h
      cases hp : processCmd m c with
      | mk m3 b =>
        rw [hp] at h
        cases b with
        | true =>
          simp only at h
          obtain ⟨h1, -⟩ := Prod.mk.injEq .. ▸ h
          rw [← h1, processCmd_true_disc m m3 c hp]
          exact ⟨rfl, rfl, rfl⟩
        | false =>
          simp only at h
          exact ih m3 m2 h

/-- C6: when the command-listening loop processes a `DISCONNECTED`
record, it runs `handleDisconnect` and returns: the connection state
becomes disconnected, the disconnect is published on `connectChange`,
the data channel and the command channel are both closed, and the loop
terminates. -/
theorem cmdListen_disconnected_record (m : ModemState) (rest : List RInput)
    (hm : m.cmdConnOpen = true) :
    cmdListen m (RInput.rdata "DISCONNECTED" :: rest)
        = (handleDisconnect m, LoopStatus.terminated) ∧
    (handleDisconnect m).lastState = ConnectedState.disconnected ∧
    (handleDisconnect m).dataConnOpen = false ∧
    (handleDisconnect m).cmdConnOpen = false ∧
    (handleDisconnect m).connectChange
        = m.connectChange ++ [ConnectedState.disconnected] := by
  refine ⟨?_, rfl, rfl, rfl, rfl⟩
  have hsplit : splitCR [] "DISCONNECTED".data = ["DISCONNECTED".data] := by decide
  simp only [cmdListen, hm]
  rw [if_neg (by simp [hm]), hsplit, processCmds_disconnected_head]

/-- Witness for C6 at the concrete open connected modem state. -/
theorem cmdListen_disconnected_record_witness :
    cmdListen sampleModem [RInput.rdata "DISCONNECTED"]
      = (⟨ConnectedState.disconnected, false, false, false, false,
          [ConnectedState.disconnected]⟩, LoopStatus.terminated) := by
  rw [(cmdListen_disconnected_record sampleModem [] rfl).1]
  rfl

/-- Helper: a read error is logged and skipped — the loop state and
behaviour are exactly those of the loop on the remaining inputs. -/
theorem cmdListen_rerr (m : ModemState) (rest : List RInput) :
    cmdListen m (RInput.rerr :: rest) = cmdListen m rest := by
  by_cases hm : m.cmdConnOpen = false
  · cases rest with
    | nil => simp [cmdListen, hm]
    | cons i r => simp [cmdListen, hm]
  · simp [cmdListen, hm]

/-- C10: the command-listening loop survives command-channel I/O
failures: a read error is logged and skipped (the loop continues exactly
as on the remaining inputs, with no state change and nothing published);
any run of pure read errors from an open connection leaves the loop
alive and the state untouched; the loop terminates from an open
connection only by processing a `DISCONNECTED` record (so the final
state is disconnected with both channels closed); and with a nil command
connection it returns immediately without touching the state. -/
theorem cmdListen_error_resilience :
    (∀ (m : ModemState) (rest : List RInput),
      cmdListen m (RInput.rerr :: rest) = cmdListen m rest) ∧
    (∀ (m : ModemState), m.cmdConnOpen = false →
      ∀ ins, cmdListen m ins = (m, LoopStatus.terminated)) ∧
    (∀ (ins : List RInput) (m m2 : ModemState), m.cmdConnOpen = true →
      cmdListen m ins = (m2, LoopStatus.terminated) →
      m2.lastState = ConnectedState.disconnected ∧
        m2.cmdConnOpen = false ∧ m2.dataConnOpen = false) ∧
    (∀ (m : ModemState) (k : Nat), m.cmdConnOpen = true →
      cmdListen m (List.replicate k RInput.rerr) = (m, LoopStatus.awaitingInput)) := by
  have hterm : ∀ (ins : List RInput) (m m2 : ModemState), m.cmdConnOpen = true →
      cmdListen m ins = (m2, LoopStatus.terminated) →
      m2.lastState = ConnectedState.disconnected ∧
        m2.cmdConnOpen = false ∧ m2.dataConnOpen = false := by
    intro ins
    induction ins with
    | nil =>
      intro m m2 hm h
      simp [cmdListen, hm] at h
    | cons i rest ih =>
      intro m m2 hm h
      cases i with
      | rerr =>
        rw [cmdListen_rerr] at h
        exact ih m m2 hm h
      | rdata s =>
        simp only [cmdListen] at h
        rw [if_neg (by simp [hm])] at h
        cases hp : processCmds m (splitCR [] s.data) with
        | mk m3 b =>
          rw [hp] at h
          cases b with
          | true =>
            simp only at h
            obtain ⟨h1, -⟩ := Prod.mk.injEq .. ▸ h
            rw [← h1]
            exact processCmds_true_disc _ m m3 hp
          | false =>
            simp only at h
            have hm3 : m3.cmdConnOpen = true :=
              (processCmds_false_conn _ m m3 hp).trans hm
            exact ih m3 m2 hm3 h
  refine ⟨fun m rest => cmdListen_rerr m rest, ?_, hterm, ?_⟩
  · intro m hm ins
    cases ins with
    | nil => simp [cmdListen, hm]
    | cons i r => simp [cmdListen, hm]
  · intro m k hm
    induction k with
    | zero => simp [List.replicate, cmdListen, hm]
    | succ k ih => rw [List.replicate_succ, cmdListen_rerr]; exact ih

/-- Witness for C10: two consecutive read errors on an open connection
leave the modem state untouched and the loop alive. -/
theorem cmdListen_error_resilience_witness :
    cmdListen sampleModem (List.replicate 2 RInput.rerr)
      = (sampleModem, LoopStatus.awaitingInput) :=
  cmdListen_error_resilience.2.2.2 sampleModem 2 rfl

end Vara
